import Mathlib

/-!
Verification of the session/project orchestration layer of the M4rk-IDE
repository (src/src/pages/Index.tsx) against its specification.

The orchestration handlers (getWorkspaceXml, handleSave, handleNewProject,
handleOpenProject, the auto-save interval effect and the delayed workspace
check) are embedded from the source file.  The IDEContext operations that
Index.tsx imports (saveProject, createNewProject, openProject,
addConsoleMessage) are not part of the shipped sources, so they are
modelled from the spec (sections 4.1 and 6); each such definition carries a
doc comment saying so.

The Blockly editing surface is external to the repository.  A mounted
workspace is represented by the serialized document it would produce
(the orchestrator treats that document as opaque text, per the spec's
glossary), so Blockly.Xml.workspaceToDom / domToText become a trivial
wrap/unwrap pair.
-/

namespace M4rkIDE

/-- Serialized form of a mounted Blockly workspace: the orchestrator only
ever observes the surface through its serialization, so a workspace is
identified with the document it serializes to. -/
abbrev Workspace := String

/-- Model of the DOM value produced by Blockly.Xml.workspaceToDom. -/
structure Dom where
  text : String
deriving Repr, DecidableEq

/-- External adapter Blockly.Xml.workspaceToDom (Index.tsx line 53). -/
def workspaceToDom (w : Workspace) : Dom := ⟨w⟩

/-- External adapter Blockly.Xml.domToText (Index.tsx line 54). -/
def domToText (d : Dom) : String := d.text

/-- Persisted project record, spec section 6: layout
id, name, workspaceDocument, generatedSource, board.  Field names follow
Index.tsx, which reads currentProject.blocklyXml and currentProject.name. -/
structure Project where
  id : String
  name : String
  blocklyXml : String
  generatedCode : String
  board : String
deriving Repr, DecidableEq

/-- Ledger entry recording one ProjectStore write, spec section 6:
create(Project) and update(id, partialFields). -/
inductive StoreOp where
  | create (p : Project)
  | update (id : String) (blocklyXml : String) (generatedCode : String)
deriving Repr, DecidableEq

/-- Console message severity, spec section 3. -/
inductive Severity where
  | info
  | error
deriving Repr, DecidableEq

/-- Console message: severity plus text, spec section 3. -/
structure ConsoleMessage where
  level : Severity
  text : String
deriving Repr, DecidableEq

/-- Session state owned by the orchestrator: the single active project
slot, the durable store, an append-only ledger of store writes, the
console sequence, and the pieces of Index.tsx component state that the
handlers read (generatedCode, selectedBoard, the workspace handle held in
workspaceRef, the blocklyKey remount counter, and the id-minting
counter). -/
structure IDEState where
  currentProject : Option Project
  store : List Project
  storeOps : List StoreOp
  consoleMessages : List ConsoleMessage
  generatedCode : String
  selectedBoard : String
  workspaceRef : Option Workspace
  blocklyKey : Nat
  nextId : Nat
deriving Repr, DecidableEq

/-- ProjectStore fetch-by-id, spec section 6: fetch(id) -> Project | NotFound. -/
def storeFetch (store : List Project) (id : String) : Option Project :=
  store.find? (fun p => p.id == id)

/-- ProjectStore update keyed by id, spec section 6:
update(id, partialFields); only the record with the given id changes, and
only its workspaceDocument and generatedSource fields. -/
def storeUpdate (store : List Project) (id : String) (xml code : String) :
    List Project :=
  store.map (fun p =>
    if p.id == id then { p with blocklyXml := xml, generatedCode := code } else p)

/-- Fresh id minted for a new project. -/
def mintId (n : Nat) : String := "project-" ++ toString n

/-- Embedding of getWorkspaceXml (Index.tsx lines 51-57): if the workspace
handle is set, serialize it via workspaceToDom/domToText; otherwise return
the empty string. -/
def getWorkspaceXml (s : IDEState) : String :=
  match s.workspaceRef with
  | some w => domToText (workspaceToDom w)
  | none => ""

/-- Modelled from the spec: saveProject of IDEContext is not under src/.
Spec section 4.1: precondition an active project exists; writes the
(workspace document, generated source) pair to ProjectStore keyed by the
active project's id; no other observable effect, and the in-memory active
project is left unchanged. -/
def saveProject (s : IDEState) (xml code : String) : IDEState :=
  match s.currentProject with
  | none => s
  | some p =>
      { s with
        store := storeUpdate s.store p.id xml code,
        storeOps := s.storeOps ++ [StoreOp.update p.id xml code] }

/-- Modelled from the spec: createNewProject of IDEContext is not under
src/.  Spec section 4.1: always succeeds locally; constructs a new Project
with a freshly minted id, assigns it as the active project, and
immediately requests a durable write (store create). -/
def createNewProject (s : IDEState) (name xml code : String) : IDEState :=
  let p : Project :=
    { id := mintId s.nextId, name := name, blocklyXml := xml,
      generatedCode := code, board := s.selectedBoard }
  { s with
    currentProject := some p,
    store := s.store ++ [p],
    storeOps := s.storeOps ++ [StoreOp.create p],
    nextId := s.nextId + 1 }

/-- Outcome of openProject on an absent id, spec section 7 taxonomy (a). -/
inductive OpenError where
  | notFound
deriving Repr, DecidableEq

/-- Modelled from the spec: openProject of IDEContext is not under src/.
Spec section 4.1: fetches the Project by id from ProjectStore; fails with
a NotFound condition if absent (propagated, not swallowed); on success
replaces the active project wholesale. -/
def openProject (s : IDEState) (id : String) : Except OpenError IDEState :=
  match storeFetch s.store id with
  | none => Except.error OpenError.notFound
  | some p => Except.ok { s with currentProject := some p }

/-- Modelled from the spec: addConsoleMessage of IDEContext is not under
src/.  Spec section 4.1: appends to the console sequence; never fails;
never drops earlier messages. -/
def addConsoleMessage (s : IDEState) (level : Severity) (text : String) :
    IDEState :=
  { s with consoleMessages := s.consoleMessages ++ [⟨level, text⟩] }

/-- JavaScript truthy-or on strings, embedding the expression
getWorkspaceXml() || '' of Index.tsx line 67: the empty string is falsy. -/
def jsOrEmpty (a b : String) : String :=
  if a = "" then b else a

/-- Embedding of handleSave (Index.tsx lines 59-64): read the workspace
document; if it is falsy (empty) do nothing, otherwise pass it to
saveProject together with the current generatedCode, unmodified. -/
def handleSave (s : IDEState) : IDEState :=
  let xml := getWorkspaceXml s
  if xml = "" then s else saveProject s xml s.generatedCode

/-- Embedding of handleNewProject (Index.tsx lines 66-69): read the
workspace document, defaulting to the empty string, and call
createNewProject unconditionally. -/
def handleNewProject (s : IDEState) (name : String) : IDEState :=
  createNewProject s name (jsOrEmpty (getWorkspaceXml s) "") s.generatedCode

/-- Embedding of handleOpenProject (Index.tsx lines 71-76): await
openProject(id); on success bump the blocklyKey remount counter and append
one info console message; a rejected openProject propagates (the
subsequent statements do not run). -/
def handleOpenProject (s : IDEState) (id : String) : Except OpenError IDEState :=
  match openProject s id with
  | Except.error e => Except.error e
  | Except.ok s1 =>
      let s2 := { s1 with blocklyKey := s1.blocklyKey + 1 }
      Except.ok (addConsoleMessage s2 Severity.info "Proyecto cargado correctamente")

/-- Embedding of the auto-save interval callback (Index.tsx lines 86-90):
on each tick, if a project is active run handleSave, else do nothing. -/
def autoSaveTick (s : IDEState) : IDEState :=
  if s.currentProject.isSome then handleSave s else s

/-- A project-lifecycle operation of the kind claim C4 quantifies over. -/
inductive SessionOp where
  | newProject (name : String)
  | openProj (id : String)
deriving Repr, DecidableEq

/-- Run one lifecycle operation at the Index.tsx handler level; a failed
open leaves the state unchanged (the rejection propagates past the
handler, which performs no state change in that case). -/
def runOp (s : IDEState) (op : SessionOp) : IDEState :=
  match op with
  | SessionOp.newProject name => handleNewProject s name
  | SessionOp.openProj id =>
      match handleOpenProject s id with
      | Except.ok s1 => s1
      | Except.error _ => s

/-- Run a sequence of lifecycle operations. -/
def runOps (s : IDEState) (ops : List SessionOp) : IDEState :=
  ops.foldl runOp s

/-- The id a lifecycle operation establishes when it completes from state
s: a create always completes and establishes the freshly minted id; an
open completes exactly when the id is present in the store. -/
def establishes (s : IDEState) : SessionOp → Option String
  | SessionOp.newProject _ => some (mintId s.nextId)
  | SessionOp.openProj id =>
      if (storeFetch s.store id).isSome then some id else none

/-- The ids established by the completed calls of a run, in order. -/
def completions (s : IDEState) : List SessionOp → List String
  | [] => []
  | op :: rest => (establishes s op).toList ++ completions (runOp s op) rest

/-- Id of the active project, if any. -/
def activeId (s : IDEState) : Option String :=
  s.currentProject.map (fun p => p.id)

/-- State of the auto-save interval timer: the currently armed interval id
(if any) and the next fresh id the runtime would hand out, so that a newly
armed interval is distinguishable from every earlier one. -/
structure AutoSaveTimer where
  interval : Option Nat
  nextHandle : Nat
deriving Repr, DecidableEq

/-- Effect cleanup (Index.tsx line 91): clearInterval disarms the timer. -/
def clearIntervalT (t : AutoSaveTimer) : AutoSaveTimer :=
  { t with interval := none }

/-- Effect body (Index.tsx lines 86-90): setInterval arms a fresh timer. -/
def setIntervalT (t : AutoSaveTimer) : AutoSaveTimer :=
  { interval := some t.nextHandle, nextHandle := t.nextHandle + 1 }

/-- React semantics of the auto-save effect (Index.tsx lines 85-92) on a
render: the dependency list is [currentProject, handleSave]; when it
changed since the previous render the cleanup runs and then the body,
otherwise nothing happens.  The handleSave dependency is a useCallback
value keyed by an identity counter. -/
def autoSaveEffectUpdate (oldDeps newDeps : Option Project × Nat)
    (t : AutoSaveTimer) : AutoSaveTimer :=
  if oldDeps = newDeps then t else setIntervalT (clearIntervalT t)

/-- Timing-level state of the workspace-handle subsystem (Index.tsx lines
36-49): the handle held in workspaceRef, the pending delayed check (the
absolute time at which the 500 ms setTimeout fires, if one is scheduled),
and the surface the DOM currently holds (what querySelector plus
Blockly.getMainWorkspace would find), as the document it serializes to. -/
structure SurfaceTiming where
  workspaceRef : Option Workspace
  pendingCheck : Option Nat
  mounted : Option Workspace
deriving Repr, DecidableEq

/-- Embedding of checkWorkspace (Index.tsx lines 37-45), run when its
timeout fires: if the container and a main workspace exist, store the
handle in workspaceRef; either way the timeout is now spent. -/
def checkWorkspace (st : SurfaceTiming) : SurfaceTiming :=
  match st.mounted with
  | some w => { st with workspaceRef := some w, pendingCheck := none }
  | none => { st with pendingCheck := none }

/-- React semantics of the [blocklyKey] effect (Index.tsx lines 36-49) on
a remount at time now with new surface m: the cleanup clears any earlier
pending timeout (clearTimeout, line 48) and the body schedules exactly one
checkWorkspace 500 ms later (line 47); the held handle is untouched until
that check runs. -/
def remountEffect (st : SurfaceTiming) (now : Nat) (m : Option Workspace) :
    SurfaceTiming :=
  { workspaceRef := st.workspaceRef, pendingCheck := some (now + 500),
    mounted := m }

/-- The workspace read of getWorkspaceXml at the timing level: serialize
the held handle, or return the empty document when none is held. -/
def getWorkspaceXmlTimed (st : SurfaceTiming) : String :=
  match st.workspaceRef with
  | some w => domToText (workspaceToDom w)
  | none => ""

/-! Helper lemmas about the store. -/

theorem storeFetch_storeUpdate (store : List Project) (id xml code : String) :
    storeFetch (storeUpdate store id xml code) id
      = (storeFetch store id).map
          (fun q => { q with blocklyXml := xml, generatedCode := code }) := by
  induction store with
  | nil => rfl
  | cons p rest ih =>
      simp only [storeFetch, storeUpdate, List.map_cons, List.find?_cons] at *
      cases h : (p.id == id) with
      | true => simp [h]
      | false => simpa [h] using ih

theorem storeFetch_mem_id (store : List Project) (id : String) (p : Project)
    (h : storeFetch store id = some p) : p.id = id := by
  have h1 : store.find? (fun r => r.id == id) = some p := h
  have h2 := List.find?_some h1
  simpa using h2

/-! Sample states used by the witnesses. -/

def sampleProject : Project :=
  { id := "project-0", name := "Blink", blocklyXml := "oldised",
    generatedCode := "oldcode", board := "uno" }

def sampleState : IDEState :=
  { currentProject := some sampleProject,
    store := [sampleProject],
    storeOps := [],
    consoleMessages := [],
    generatedCode := "void setup(){}",
    selectedBoard := "uno",
    workspaceRef := some "<xml/>",
    blocklyKey := 0,
    nextId := 1 }

def unmountedState : IDEState :=
  { sampleState with workspaceRef := none }

/-! Claim theorems. -/

/-- C1: a save triggered on an active project while the workspace surface
is mounted writes a store record for the active project's id whose
workspace document is exactly the XML string getWorkspaceXml returned at
the moment of the call; that string reaches saveProject unmodified, as the
ledger entry records. -/
theorem handleSave_writes_workspaceXml_exact
    (s : IDEState) (p q : Project) (d : String)
    (hp : s.currentProject = some p)
    (href : s.workspaceRef = some d) (hd : d ≠ "")
    (hq : storeFetch s.store p.id = some q) :
    getWorkspaceXml s = d ∧
    storeFetch (handleSave s).store p.id
      = some { q with blocklyXml := getWorkspaceXml s,
                      generatedCode := s.generatedCode } ∧
    (handleSave s).storeOps
      = s.storeOps ++ [StoreOp.update p.id (getWorkspaceXml s) s.generatedCode] := by
  have hx : getWorkspaceXml s = d := by
    simp [getWorkspaceXml, href, domToText, workspaceToDom]
  refine ⟨hx, ?_, ?_⟩ <;>
    simp [handleSave, hx, hd, saveProject, hp, storeFetch_storeUpdate, hq]

theorem handleSave_writes_workspaceXml_exact_witness :
    getWorkspaceXml sampleState = "<xml/>" ∧
    storeFetch (handleSave sampleState).store sampleProject.id
      = some { sampleProject with blocklyXml := getWorkspaceXml sampleState,
                                  generatedCode := sampleState.generatedCode } ∧
    (handleSave sampleState).storeOps
      = sampleState.storeOps ++
          [StoreOp.update sampleProject.id (getWorkspaceXml sampleState)
            sampleState.generatedCode] :=
  handleSave_writes_workspaceXml_exact sampleState sampleProject sampleProject
    "<xml/>" rfl rfl (by decide) rfl

/-- C2: a save triggered while the workspace read yields the empty
sentinel is skipped silently: the state is untouched, so no store write
occurs, no ledger entry is appended, and no existing record's workspace
document is overwritten with an empty value. -/
theorem handleSave_empty_document_skips
    (s : IDEState) (hempty : getWorkspaceXml s = "") :
    handleSave s = s ∧
    (handleSave s).storeOps = s.storeOps ∧
    ∀ id, storeFetch (handleSave s).store id = storeFetch s.store id := by
  have h : handleSave s = s := by simp [handleSave, hempty]
  exact ⟨h, by rw [h], fun id => by rw [h]⟩

theorem handleSave_empty_document_skips_witness :
    handleSave unmountedState = unmountedState ∧
    (handleSave unmountedState).storeOps = unmountedState.storeOps ∧
    ∀ id, storeFetch (handleSave unmountedState).store id
      = storeFetch unmountedState.store id :=
  handleSave_empty_document_skips unmountedState rfl

/-- C3: opening an id absent from the ProjectStore yields a NotFound
outcome propagated to the caller, and the session state, including the
previously active project, is left unchanged. -/
theorem handleOpenProject_notFound_propagates
    (s : IDEState) (id : String) (habs : storeFetch s.store id = none) :
    handleOpenProject s id = Except.error OpenError.notFound ∧
    runOp s (SessionOp.openProj id) = s := by
  have h2 : handleOpenProject s id = Except.error OpenError.notFound := by
    simp [handleOpenProject, openProject, habs]
  exact ⟨h2, by simp [runOp, h2]⟩

theorem handleOpenProject_notFound_propagates_witness :
    handleOpenProject sampleState "missing-id" = Except.error OpenError.notFound ∧
    runOp sampleState (SessionOp.openProj "missing-id") = sampleState :=
  handleOpenProject_notFound_propagates sampleState "missing-id" (by decide)

/-- C7: a successful openProject replaces the active project wholesale by
the fetched Project, and the handler appends exactly one info-level
console message confirming the load (and bumps the remount counter). -/
theorem handleOpenProject_success_replaces_and_logs
    (s : IDEState) (id : String) (p : Project)
    (hf : storeFetch s.store id = some p) :
    handleOpenProject s id = Except.ok
      { s with currentProject := some p,
               blocklyKey := s.blocklyKey + 1,
               consoleMessages := s.consoleMessages ++
                 [⟨Severity.info, "Proyecto cargado correctamente"⟩] } := by
  simp [handleOpenProject, openProject, hf, addConsoleMessage]

theorem handleOpenProject_success_replaces_and_logs_witness :
    handleOpenProject sampleState "project-0" = Except.ok
      { sampleState with
          currentProject := some sampleProject,
          blocklyKey := sampleState.blocklyKey + 1,
          consoleMessages := sampleState.consoleMessages ++
            [⟨Severity.info, "Proyecto cargado correctamente"⟩] } :=
  handleOpenProject_success_replaces_and_logs sampleState "project-0"
    sampleProject (by decide)

/-- C8: the workspace read is total: in every state it returns a string,
namely the serialized document when a handle is available and the empty
sentinel when none is, and the unmounted case is an ordinary return, not
a failure. -/
theorem getWorkspaceXml_total (s : IDEState) :
    (∀ w, s.workspaceRef = some w →
        getWorkspaceXml s = domToText (workspaceToDom w)) ∧
    (s.workspaceRef = none → getWorkspaceXml s = "") := by
  refine ⟨fun w hw => ?_, fun hw => ?_⟩ <;> simp [getWorkspaceXml, hw]

theorem getWorkspaceXml_total_witness :
    getWorkspaceXml sampleState = domToText (workspaceToDom "<xml/>") ∧
    getWorkspaceXml unmountedState = "" :=
  ⟨(getWorkspaceXml_total sampleState).1 "<xml/>" rfl,
   (getWorkspaceXml_total unmountedState).2 rfl⟩

/-- C9: creating a new project does not skip on an empty workspace
document: in the very state where a save would be skipped, the new-project
handler still calls createNewProject, passing the empty string, so a new
project is created, made active and persisted with an empty document. -/
theorem handleNewProject_creates_even_when_empty
    (s : IDEState) (name : String) (hun : s.workspaceRef = none) :
    handleSave s = s ∧
    (handleNewProject s name).storeOps = s.storeOps ++
      [StoreOp.create
        { id := mintId s.nextId, name := name, blocklyXml := "",
          generatedCode := s.generatedCode, board := s.selectedBoard }] ∧
    (handleNewProject s name).currentProject = some
      { id := mintId s.nextId, name := name, blocklyXml := "",
        generatedCode := s.generatedCode, board := s.selectedBoard } := by
  have hx : getWorkspaceXml s = "" := by simp [getWorkspaceXml, hun]
  refine ⟨by simp [handleSave, hx], ?_, ?_⟩ <;>
    simp [handleNewProject, createNewProject, jsOrEmpty, hx]

theorem handleNewProject_creates_even_when_empty_witness :
    handleSave unmountedState = unmountedState ∧
    (handleNewProject unmountedState "Nuevo").storeOps
      = unmountedState.storeOps ++
        [StoreOp.create
          { id := mintId unmountedState.nextId, name := "Nuevo",
            blocklyXml := "", generatedCode := unmountedState.generatedCode,
            board := unmountedState.selectedBoard }] ∧
    (handleNewProject unmountedState "Nuevo").currentProject = some
      { id := mintId unmountedState.nextId, name := "Nuevo", blocklyXml := "",
        generatedCode := unmountedState.generatedCode,
        board := unmountedState.selectedBoard } :=
  handleNewProject_creates_even_when_empty unmountedState "Nuevo" rfl

/-- C5: while a project is active, every elapse of the 30000 ms auto-save
interval invokes the save operation unconditionally: the tick is exactly
handleSave (the model carries no dirty flag for it to consult), and in
particular a clean project, whose store record already equals the current
workspace snapshot, is written to the store again on the tick. -/
theorem autoSaveTick_saves_unconditionally
    (s : IDEState) (p q : Project) (d : String)
    (hp : s.currentProject = some p)
    (href : s.workspaceRef = some d) (hd : d ≠ "")
    (hq : storeFetch s.store p.id = some q)
    (hclean : q.blocklyXml = d ∧ q.generatedCode = s.generatedCode) :
    autoSaveTick s = handleSave s ∧
    (autoSaveTick s).storeOps
      = s.storeOps ++ [StoreOp.update p.id d s.generatedCode] := by
  have hx : getWorkspaceXml s = d := by
    simp [getWorkspaceXml, href, domToText, workspaceToDom]
  have ht : autoSaveTick s = handleSave s := by simp [autoSaveTick, hp]
  refine ⟨ht, ?_⟩
  rw [ht]
  simp [handleSave, hx, hd, saveProject, hp]

def cleanProject : Project :=
  { id := "project-0", name := "Blink", blocklyXml := "<xml/>",
    generatedCode := "void setup(){}", board := "uno" }

def cleanState : IDEState :=
  { sampleState with
      currentProject := some cleanProject,
      store := [cleanProject] }

theorem autoSaveTick_saves_unconditionally_witness :
    autoSaveTick cleanState = handleSave cleanState ∧
    (autoSaveTick cleanState).storeOps
      = cleanState.storeOps ++
          [StoreOp.update "project-0" "<xml/>" cleanState.generatedCode] :=
  autoSaveTick_saves_unconditionally cleanState cleanProject cleanProject
    "<xml/>" rfl rfl (by decide) (by decide) ⟨rfl, rfl⟩

/-- C6: an auto-save tick while no project is active is a no-op, so in
particular it performs no store operation (store and ledger unchanged);
and whenever the active-project identity in the effect's dependency list
changes, the effect re-runs, clearing the old interval and arming a fresh
one whose handle differs from every previously issued handle. -/
theorem autoSave_no_project_noop_and_rearm
    (s : IDEState) (hs : s.currentProject = none)
    (oldDeps newDeps : Option Project × Nat) (t : AutoSaveTimer)
    (hid : oldDeps.1 ≠ newDeps.1) :
    autoSaveTick s = s ∧
    (autoSaveTick s).store = s.store ∧
    (autoSaveTick s).storeOps = s.storeOps ∧
    (autoSaveEffectUpdate oldDeps newDeps t).interval = some t.nextHandle ∧
    (∀ i, t.interval = some i → i < t.nextHandle →
        (autoSaveEffectUpdate oldDeps newDeps t).interval ≠ some i) := by
  have hdeps : oldDeps ≠ newDeps := fun hcontra => hid (by rw [hcontra])
  have hno : autoSaveTick s = s := by simp [autoSaveTick, hs]
  have harm : (autoSaveEffectUpdate oldDeps newDeps t).interval
      = some t.nextHandle := by
    simp [autoSaveEffectUpdate, hdeps, setIntervalT, clearIntervalT]
  refine ⟨hno, by rw [hno], by rw [hno], harm, fun i hi hlt hcontra => ?_⟩
  rw [harm] at hcontra
  exact absurd (Option.some.inj hcontra) (Nat.ne_of_gt hlt)

theorem autoSave_no_project_noop_and_rearm_witness :
    autoSaveTick { sampleState with currentProject := none }
      = { sampleState with currentProject := none } ∧
    (autoSaveTick { sampleState with currentProject := none }).store
      = ({ sampleState with currentProject := none } : IDEState).store ∧
    (autoSaveTick { sampleState with currentProject := none }).storeOps
      = ({ sampleState with currentProject := none } : IDEState).storeOps ∧
    (autoSaveEffectUpdate (none, 0) (some sampleProject, 0)
        ⟨some 2, 3⟩).interval = some 3 ∧
    (∀ i, (⟨some 2, 3⟩ : AutoSaveTimer).interval = some i → i < 3 →
        (autoSaveEffectUpdate (none, 0) (some sampleProject, 0)
          ⟨some 2, 3⟩).interval ≠ some i) :=
  autoSave_no_project_noop_and_rearm
    { sampleState with currentProject := none } rfl
    (none, 0) (some sampleProject, 0) ⟨some 2, 3⟩ (by decide)

/-- C10: each change of the remount counter schedules exactly one delayed
workspace check 500 ms later (the single pending-timeout slot holds that
check and nothing else), the held handle is not touched by the remount
itself, so any read before the check completes serializes the previous
handle (or yields the empty document when none is held) rather than the
newly mounted surface; the handle is refreshed only when the check runs. -/
theorem remount_schedules_one_check_reads_stale
    (st : SurfaceTiming) (now : Nat) (m : Option Workspace) :
    (remountEffect st now m).pendingCheck = some (now + 500) ∧
    (remountEffect st now m).workspaceRef = st.workspaceRef ∧
    getWorkspaceXmlTimed (remountEffect st now m) = getWorkspaceXmlTimed st ∧
    (st.workspaceRef = none →
        getWorkspaceXmlTimed (remountEffect st now m) = "") ∧
    (checkWorkspace (remountEffect st now m)).workspaceRef
      = (match m with
         | some w => some w
         | none => st.workspaceRef) := by
  refine ⟨rfl, rfl, ?_, fun hw => ?_, ?_⟩
  · simp [getWorkspaceXmlTimed, remountEffect]
  · simp [getWorkspaceXmlTimed, remountEffect, hw]
  · cases m <;> simp [checkWorkspace, remountEffect]

theorem remount_schedules_one_check_reads_stale_witness :
    (remountEffect ⟨none, none, none⟩ 100 (some "<new/>")).pendingCheck
      = some (100 + 500) ∧
    (remountEffect ⟨none, none, none⟩ 100 (some "<new/>")).workspaceRef
      = (⟨none, none, none⟩ : SurfaceTiming).workspaceRef ∧
    getWorkspaceXmlTimed (remountEffect ⟨none, none, none⟩ 100 (some "<new/>"))
      = getWorkspaceXmlTimed ⟨none, none, none⟩ ∧
    ((⟨none, none, none⟩ : SurfaceTiming).workspaceRef = none →
        getWorkspaceXmlTimed
          (remountEffect ⟨none, none, none⟩ 100 (some "<new/>")) = "") ∧
    (checkWorkspace
        (remountEffect ⟨none, none, none⟩ 100 (some "<new/>"))).workspaceRef
      = (match (some "<new/>" : Option Workspace) with
         | some w => some w
         | none => (⟨none, none, none⟩ : SurfaceTiming).workspaceRef) :=
  remount_schedules_one_check_reads_stale ⟨none, none, none⟩ 100 (some "<new/>")

/-- Last element of a list, or a default when the list is empty: lastOr l d
is the id established by the most recent completed call recorded in l,
falling back to d when no call completed. -/
def lastOr (l : List String) (d : Option String) : Option String :=
  match l with
  | [] => d
  | x :: xs => lastOr xs (some x)

theorem lastOr_append (a b : List String) (d : Option String) :
    lastOr (a ++ b) d = lastOr b (lastOr a d) := by
  induction a generalizing d with
  | nil => rfl
  | cons x xs ih => simp [lastOr, ih]

theorem runOp_activeId (s : IDEState) (op : SessionOp) :
    activeId (runOp s op)
      = match establishes s op with
        | some i => some i
        | none => activeId s := by
  cases op with
  | newProject name =>
      simp [runOp, handleNewProject, createNewProject, establishes, activeId]
  | openProj id =>
      cases hf : storeFetch s.store id with
      | none => simp [runOp, handleOpenProject, openProject, hf, establishes]
      | some p =>
          have hpid : p.id = id := storeFetch_mem_id s.store id p hf
          simp [runOp, handleOpenProject, openProject, hf, establishes,
                addConsoleMessage, activeId, hpid]

/-- C4: under any sequence of create/open operations the session holds at
most one active project (the single currentProject slot), and the active
project's id is the id established by the most recently completed
create/open call, falling back to the initial active id when no call in
the sequence completed. -/
theorem session_single_active_last_completed
    (ops : List SessionOp) (s : IDEState) :
    (runOps s ops).currentProject.toList.length ≤ 1 ∧
    activeId (runOps s ops) = lastOr (completions s ops) (activeId s) := by
  constructor
  · cases h : (runOps s ops).currentProject <;> simp [h]
  · induction ops generalizing s with
    | nil => simp [runOps, completions, lastOr]
    | cons op rest ih =>
        have hstep := runOp_activeId s op
        have hrest := ih (runOp s op)
        have hmid : lastOr (establishes s op).toList (activeId s)
            = activeId (runOp s op) := by
          cases he : establishes s op with
          | some i => rw [hstep]; simp [he, lastOr]
          | none => rw [hstep]; simp [he, lastOr]
        show activeId (runOps (runOp s op) rest)
          = lastOr ((establishes s op).toList ++ completions (runOp s op) rest)
              (activeId s)
        rw [lastOr_append, hmid]
        exact hrest

end M4rkIDE
